import Mathlib

/-!
Shallow embedding of the aavetracker per-chain monitoring engine
(src/backend/connector.py).  Pure data flow is modelled directly; external
collaborators (environment variables, the settings store, the JSON-RPC
client, json.loads, the websocket) are passed in as explicit oracle values
or functions, and the observable effects of a run (queries issued, calls to
process_liquidation_log, settings writes, notifier calls, printed output)
are returned as explicit traces.
-/

/-- Polling interval constant HEALTH_FACTOR_CHECK_PERIOD from connector.py. -/
def HEALTH_FACTOR_CHECK_PERIOD : Nat := 60

/-- Batch size constant HEALTH_FACTOR_BATCH_SIZE from connector.py. -/
def HEALTH_FACTOR_BATCH_SIZE : Nat := 100

/-- The two liquidation event topics.  In connector.py the constants
V2_LIQUIDATION_TOPIC and V3_LIQUIDATION_TOPIC are left as ellipsis
placeholders, so the model keeps them as two distinct abstract tokens; the
code only ever passes them around, never inspects them. -/
inductive LiquidationTopic where
  | v2
  | v3
deriving DecidableEq, Repr

def V2_LIQUIDATION_TOPIC : LiquidationTopic := LiquidationTopic.v2

def V3_LIQUIDATION_TOPIC : LiquidationTopic := LiquidationTopic.v3

/-- Subscription request built by build_subscription_message: the id and
method fields plus the getLogs filter contents (address and topics). -/
structure SubscriptionMessage where
  id : Nat
  method : String
  address : String
  topics : List LiquidationTopic
deriving DecidableEq, Repr

/-- build_subscription_message from connector.py. -/
def build_subscription_message (pool_address : String)
    (liquidation_topic : LiquidationTopic) : SubscriptionMessage :=
  { id := 2, method := "eth_subscribe", address := pool_address,
    topics := [liquidation_topic] }

/-- Fuel-indexed worker for make_batches; the fuel bounds the number of
iterations of the Python range loop and is instantiated with the list
length, which suffices whenever the batch size is at least one. -/
def makeBatchesGo {α : Type} (batch_size : Nat) : Nat → List α → List (List α)
  | _, [] => []
  | 0, _ :: _ => []
  | fuel + 1, x :: xs =>
      (x :: xs).take batch_size :: makeBatchesGo batch_size fuel ((x :: xs).drop batch_size)

/-- make_batches from connector.py: successive batch_size-sized slices of
lst, in order. -/
def make_batches {α : Type} (lst : List α) (batch_size : Nat) : List (List α) :=
  makeBatchesGo batch_size lst.length lst

/-- Modelled from the spec: TrackedAccount from backend.types (a module of
this repository that is not under src): chain, protocol version and address
of a watched position. -/
structure TrackedAccount where
  chainName : String
  aave_version : String
  address : String
deriving DecidableEq, Repr

/-- Modelled from the spec: TrackedAccountWithHF from backend.types (not
under src): a tracked account together with its alert threshold, read as
account.health_factor_threshold by connector.py. -/
structure TrackedAccountWithHF where
  account : TrackedAccount
  health_factor_threshold : ℚ
deriving DecidableEq, Repr

/-- The accumulation loop over batches in health_factor_periodic_task: call
the batched query on each batch in order and concatenate the results.  An
Except.error models an exception raised by the query; the source has no
try/except, so the first error aborts the whole computation. -/
def runBatches (get : List TrackedAccountWithHF → Except String (List ℚ)) :
    List (List TrackedAccountWithHF) → Except String (List ℚ)
  | [] => Except.ok []
  | batch :: rest => do
      let hfs ← get batch
      let tail ← runBatches get rest
      pure (hfs ++ tail)

/-- The final loop of health_factor_periodic_task: zip the accounts with
the collected health factors and call notifier.notify on every strict
threshold breach.  The returned list is the sequence of notify calls
(account, health factor), in order. -/
def notifyLoop (accounts : List TrackedAccountWithHF) (health_factors : List ℚ) :
    List (TrackedAccountWithHF × ℚ) :=
  (accounts.zip health_factors).filter (fun p => decide (p.2 < p.1.health_factor_threshold))

/-- health_factor_periodic_task from connector.py.  The account registry
result is passed in as all_accounts and the two batched health factor
queries as oracles; the returned list is the sequence of notifier.notify
calls (account, health factor), in order.  An Except.error is an uncaught
exception escaping the task. -/
def health_factor_periodic_task
    (all_accounts : List TrackedAccountWithHF)
    (get_v2_health_factors get_v3_health_factors :
      List TrackedAccountWithHF → Except String (List ℚ)) :
    Except String (List (TrackedAccountWithHF × ℚ)) := do
  let v2_accounts := all_accounts.filter (fun a => a.account.aave_version == "V2")
  let v3_accounts := all_accounts.filter (fun a => a.account.aave_version == "V3")
  let v2_health_factors ←
    runBatches get_v2_health_factors (make_batches v2_accounts HEALTH_FACTOR_BATCH_SIZE)
  let v3_health_factors ←
    runBatches get_v3_health_factors (make_batches v3_accounts HEALTH_FACTOR_BATCH_SIZE)
  pure (notifyLoop (v2_accounts ++ v3_accounts) (v2_health_factors ++ v3_health_factors))

/-- The oracle inputs consumed by one polling cycle of
monitor_health_factor. -/
structure CycleOracles where
  accounts : List TrackedAccountWithHF
  getV2 : List TrackedAccountWithHF → Except String (List ℚ)
  getV3 : List TrackedAccountWithHF → Except String (List ℚ)

/-- monitor_health_factor from connector.py, observed over finitely many
cycles: the while-True loop runs one cycle per list element, sleeping in
between.  There is no try/except in the source, so an uncaught exception in
a cycle terminates the loop; the remaining cycles never run. -/
def monitor_health_factor :
    List CycleOracles → Except String (List (List (TrackedAccountWithHF × ℚ)))
  | [] => Except.ok []
  | cycle :: rest => do
      let notifs ← health_factor_periodic_task cycle.accounts cycle.getV2 cycle.getV3
      let tail ← monitor_health_factor rest
      pure (notifs :: tail)

/-- A raw liquidation log as returned by get_logs; connector.py treats logs
opaquely, so only the block number is modelled. -/
structure EthLog where
  blockNumber : Nat
deriving DecidableEq, Repr

/-- Block reference in a get_logs filter: a number or the literal latest
tag. -/
inductive BlockTag where
  | number (n : Nat)
  | latest
deriving DecidableEq, Repr

/-- Filter dict passed to web3.eth.get_logs. -/
structure LogFilter where
  address : String
  topics : List LiquidationTopic
  fromBlock : Nat
  toBlock : BlockTag
deriving DecidableEq, Repr

/-- Effect trace of one catchup_on_liquidations run: the get_logs queries
issued in order, the process_liquidation_log calls made (version, log) in
order, and the settings writes performed.  The source contains no
set_setting call, so the write trace it produces is always empty. -/
structure CatchupTrace where
  queries : List LogFilter
  processed : List (String × EthLog)
  checkpoint_writes : List (String × Nat)
deriving DecidableEq, Repr

/-- catchup_on_liquidations from connector.py.  get_setting and get_logs are
the settings store and the RPC client oracles. -/
def catchup_on_liquidations (chainName : String) (get_setting : String → Nat)
    (get_logs : LogFilter → List EthLog) (v2_pool_address v3_pool_address : String) :
    CatchupTrace :=
  let last_v2_checked_block := get_setting ("LAST_" ++ chainName ++ "_V2_CHECKED_BLOCK")
  let v2_filter : LogFilter :=
    { address := v2_pool_address, topics := [V2_LIQUIDATION_TOPIC],
      fromBlock := last_v2_checked_block, toBlock := BlockTag.latest }
  let v2_logs := get_logs v2_filter
  let last_v3_checked_block := get_setting ("LAST_" ++ chainName ++ "_V3_CHECKED_BLOCK")
  let v3_filter : LogFilter :=
    { address := v3_pool_address, topics := [V3_LIQUIDATION_TOPIC],
      fromBlock := last_v3_checked_block, toBlock := BlockTag.latest }
  let v3_logs := get_logs v3_filter
  { queries := [v2_filter, v3_filter],
    processed := v2_logs.map (fun l => ("V2", l)) ++ v3_logs.map (fun l => ("V3", l)),
    checkpoint_writes := [] }

/-- A decoded JSON object; connector.py only ever tests top-level key
membership on decoded messages, so only the key list is modelled. -/
structure JsonObject where
  keys : List String
deriving DecidableEq, Repr

/-- One ws.recv outcome: a raw text message, or the connection closing (any
exception from recv, caught by the bare except in the source and answered
with a break). -/
inductive RecvEvent where
  | message (raw : String)
  | connectionClosed
deriving DecidableEq, Repr

/-- Effect trace of the receive loop of monitor_liquidations: decoded
messages printed, calls made to process_liquidation_log, and settings
writes.  The loop body in the source only prints the decoded message, so
the last two lists record that no such call is made. -/
structure LiveLoopTrace where
  printed : List JsonObject
  forwarded_liquidation_logs : List JsonObject
  checkpoint_writes : List (String × Nat)
deriving DecidableEq, Repr

/-- The while-True receive loop of monitor_liquidations over a finite event
sequence: break when the connection closes, log and skip messages that fail
to decode, print the rest.  decode models json.loads, with none standing
for a JSONDecodeError. -/
def monitorLoop (decode : String → Option JsonObject) : List RecvEvent → LiveLoopTrace
  | [] => { printed := [], forwarded_liquidation_logs := [], checkpoint_writes := [] }
  | RecvEvent.connectionClosed :: _ =>
      { printed := [], forwarded_liquidation_logs := [], checkpoint_writes := [] }
  | RecvEvent.message raw :: rest =>
      match decode raw with
      | none => monitorLoop decode rest
      | some decoded_message =>
          let t := monitorLoop decode rest
          { t with printed := decoded_message :: t.printed }

/-- Connector state stored by the BaseConnector constructor (opaque
collaborators such as the notifier, the settings object and the web3 client
are omitted). -/
structure ConnectorState where
  http_rpc_url : String
  ws_rpc_url : String
  chainName : String
  v2_pool_address : String
  v3_pool_address : String
deriving DecidableEq, Repr

/-- Outcome of one monitor_liquidations run: the AssertionError raised for
an unknown version, a StartupException, or a completed subscription with
the request that was sent and the receive-loop trace. -/
inductive MonitorOutcome where
  | assertion_error (msg : String)
  | startup_exception (msg : String)
  | subscribed (sent : SubscriptionMessage) (trace : LiveLoopTrace)
deriving DecidableEq, Repr

/-- The body of monitor_liquidations after the version dispatch: connect,
send the subscription request, decode and check the acknowledgment, then
run the receive loop.  Message texts elide the Python rendering of the
decoded response object. -/
def monitorLiquidationsConnected (conn : ConnectorState)
    (decode : String → Option JsonObject) (aave_version : String)
    (pool_address : String) (liquidation_topic : LiquidationTopic)
    (raw_subscription_response : String) (events : List RecvEvent) : MonitorOutcome :=
  let sent := build_subscription_message pool_address liquidation_topic
  match decode raw_subscription_response with
  | none =>
      MonitorOutcome.startup_exception
        ("Failed to decode subscription response " ++ raw_subscription_response ++
          " for " ++ conn.chainName ++ " aave " ++ aave_version)
  | some decoded_subscription_response =>
      if "error" ∈ decoded_subscription_response.keys then
        MonitorOutcome.startup_exception
          ("Failed to subscribe to liquidations for " ++ conn.chainName ++
            " aave " ++ aave_version)
      else
        MonitorOutcome.subscribed sent (monitorLoop decode events)

/-- monitor_liquidations from connector.py.  The websocket session is
modelled by the raw subscription acknowledgment plus the subsequent receive
events. -/
def monitor_liquidations (conn : ConnectorState)
    (decode : String → Option JsonObject) (aave_version : String)
    (raw_subscription_response : String) (events : List RecvEvent) : MonitorOutcome :=
  if aave_version = "V2" then
    monitorLiquidationsConnected conn decode aave_version conn.v2_pool_address
      V2_LIQUIDATION_TOPIC raw_subscription_response events
  else if aave_version = "V3" then
    monitorLiquidationsConnected conn decode aave_version conn.v3_pool_address
      V3_LIQUIDATION_TOPIC raw_subscription_response events
  else
    MonitorOutcome.assertion_error ("Unknown aave version " ++ aave_version)

/-- Outcome of the BaseConnector constructor: a StartupException or the
stored state. -/
inductive InitResult where
  | startup_exception (msg : String)
  | ok (conn : ConnectorState)
deriving DecidableEq, Repr

/-- Python falsiness of an optional string: missing or empty. -/
def isFalsy : Option String → Bool
  | none => true
  | some s => s == ""

/-- The BaseConnector constructor: read both RPC endpoint environment
variables, fail fast when either is missing or empty, otherwise store
both.  getenv models os.getenv. -/
def BaseConnector_init (chainName : String) (getenv : String → Option String)
    (v2_pool_address v3_pool_address : String) : InitResult :=
  let http_rpc_url := getenv (chainName ++ "_HTTP_RPC")
  let ws_rpc_url := getenv (chainName ++ "_WS_RPC")
  if isFalsy http_rpc_url || isFalsy ws_rpc_url then
    InitResult.startup_exception ("Either http or ws rpc for " ++ chainName ++ " was not found")
  else
    InitResult.ok
      { http_rpc_url := http_rpc_url.getD "", ws_rpc_url := ws_rpc_url.getD "",
        chainName := chainName, v2_pool_address := v2_pool_address,
        v3_pool_address := v3_pool_address }

/-- Modelled from the spec: the set of blocks covered by a get_logs filter
once the latest tag resolves to latestBlock; eth_getLogs block ranges are
inclusive at both ends. -/
def specCoveredBlocks (f : LogFilter) (latestBlock : Nat) : Finset Nat :=
  Finset.Icc f.fromBlock
    (match f.toBlock with
      | BlockTag.number n => n
      | BlockTag.latest => latestBlock)

/-- Modelled from the spec: the already-processed history for a checkpoint
value c.  The spec defines the Checkpoint as the last block number fully
processed, so the history is every block up to and including c. -/
def specProcessedHistory (checkpoint : Nat) : Finset Nat :=
  Finset.Iic checkpoint

/-- Concrete settings store for counterexamples: every checkpoint is 5. -/
def demoSettings : String → Nat := fun _ => 5

/-- Concrete log oracle for counterexamples: two liquidation logs on the V2
pool, none elsewhere. -/
def demoGetLogs : LogFilter → List EthLog := fun f =>
  if f.address = "0xV2POOL" then [{ blockNumber := 6 }, { blockNumber := 7 }] else []

/-- Concrete connector state for the live monitor theorems. -/
def demoConn : ConnectorState :=
  { http_rpc_url := "http-url", ws_rpc_url := "ws-url", chainName := "ETHEREUM",
    v2_pool_address := "0xV2POOL", v3_pool_address := "0xV3POOL" }

/-- Concrete json.loads oracle: recognises a successful acknowledgment, a
liquidation log message and an error acknowledgment; everything else fails
to decode. -/
def liveDecode : String → Option JsonObject := fun raw =>
  if raw = "subscribed-ok" then some { keys := ["result"] }
  else if raw = "liquidation-log" then some { keys := ["address", "blockNumber"] }
  else if raw = "error-ack" then some { keys := ["error"] }
  else none

/-- A concrete tracked V2 account with threshold 1. -/
def c3Account : TrackedAccountWithHF :=
  { account := { chainName := "ETHEREUM", aave_version := "V2", address := "0xabc" },
    health_factor_threshold := 1 }

/-- 101 tracked V2 accounts: they split into one full batch of 100 and one
batch of 1. -/
def c3Accounts : List TrackedAccountWithHF := List.replicate 101 c3Account

/-- Concrete batched V2 query: the full batch of 100 raises, the remaining
batch of 1 succeeds with a breaching health factor of 0. -/
def c3GetV2 : List TrackedAccountWithHF → Except String (List ℚ) := fun batch =>
  if batch.length = 100 then Except.error "RPC failure"
  else Except.ok (batch.map (fun _ => (0 : ℚ)))

/-- Concrete batched V3 query: always succeeds (no V3 accounts exist in the
counterexample). -/
def c3GetV3 : List TrackedAccountWithHF → Except String (List ℚ) := fun _ => Except.ok []

/-- A single tracked V3 account, for the cycle whose V3 query fails. -/
def c3bAccounts : List TrackedAccountWithHF :=
  [{ account := { chainName := "ETHEREUM", aave_version := "V3", address := "0xdef" },
     health_factor_threshold := 1 }]

/-- Concrete batched V2 query for the V3-failure cycle: always succeeds
(there are no V2 accounts in that cycle). -/
def c3bGetV2 : List TrackedAccountWithHF → Except String (List ℚ) := fun _ => Except.ok []

/-- Concrete batched V3 query for the V3-failure cycle: always raises. -/
def c3bGetV3 : List TrackedAccountWithHF → Except String (List ℚ) := fun _ =>
  Except.error "RPC failure"

/-- A concrete V2 account whose health factor reading breaches the
threshold. -/
def wAccountV2 : TrackedAccountWithHF :=
  { account := { chainName := "ETHEREUM", aave_version := "V2", address := "0xa1" },
    health_factor_threshold := 1 }

/-- A concrete V3 account whose health factor reading stays above the
threshold. -/
def wAccountV3 : TrackedAccountWithHF :=
  { account := { chainName := "ETHEREUM", aave_version := "V3", address := "0xa2" },
    health_factor_threshold := 1 }

/-- Concrete account list for the alerting witness. -/
def wAccounts : List TrackedAccountWithHF := [wAccountV2, wAccountV3]

/-- Concrete V2 query for the alerting witness. -/
def wGetV2 : List TrackedAccountWithHF → Except String (List ℚ) := fun _ =>
  Except.ok [(0 : ℚ)]

/-- Concrete V3 query for the alerting witness. -/
def wGetV3 : List TrackedAccountWithHF → Except String (List ℚ) := fun _ =>
  Except.ok [2]

/-- Concrete environment with both RPC endpoints configured for the
ETHEREUM chain. -/
def wGetenv : String → Option String := fun key =>
  if key = "ETHEREUM_HTTP_RPC" then some "http-url"
  else if key = "ETHEREUM_WS_RPC" then some "ws-url"
  else none

/-! ## Batching lemmas (make_batches) -/

/-- Concatenating the batches produced by makeBatchesGo recovers the input
list, provided the fuel covers the list length. -/
theorem makeBatchesGo_join {α : Type} (b : Nat) (hb : 1 ≤ b) :
    ∀ (fuel : Nat) (lst : List α), lst.length ≤ fuel →
      (makeBatchesGo b fuel lst).flatten = lst := by
  intro fuel
  induction fuel with
  | zero =>
    intro lst h
    have : lst = [] := List.eq_nil_of_length_eq_zero (Nat.le_zero.mp h)
    subst this
    simp [makeBatchesGo]
  | succ f ih =>
    intro lst h
    cases lst with
    | nil => simp [makeBatchesGo]
    | cons x xs =>
      have hdrop : ((x :: xs).drop b).length ≤ f := by
        rw [List.length_drop]
        simp only [List.length_cons] at h ⊢
        omega
      simp only [makeBatchesGo, List.flatten_cons, ih _ hdrop, List.take_append_drop]

/-- A nonempty list yields at least one batch when there is fuel left. -/
theorem makeBatchesGo_ne_nil {α : Type} (b fuel : Nat) (lst : List α)
    (hfuel : 1 ≤ fuel) (hne : lst ≠ []) : makeBatchesGo b fuel lst ≠ [] := by
  cases lst with
  | nil => exact absurd rfl hne
  | cons x xs =>
    cases fuel with
    | zero => omega
    | succ f => simp [makeBatchesGo]

/-- getLast? of a cons with nonempty tail is getLast? of the tail. -/
theorem getLast_cons_of_ne_nil {α : Type} (a : α) {l : List α} (h : l ≠ []) :
    (a :: l).getLast? = l.getLast? := by
  cases l with
  | nil => exact absurd rfl h
  | cons b t => rw [List.getLast?_cons_cons]

/-- Every batch except possibly the last has exactly the batch size. -/
theorem makeBatchesGo_dropLast_length {α : Type} (b : Nat) (hb : 1 ≤ b) :
    ∀ (fuel : Nat) (lst : List α), lst.length ≤ fuel →
      ∀ batch ∈ (makeBatchesGo b fuel lst).dropLast, batch.length = b := by
  intro fuel
  induction fuel with
  | zero =>
    intro lst h
    have : lst = [] := List.eq_nil_of_length_eq_zero (Nat.le_zero.mp h)
    subst this
    simp [makeBatchesGo]
  | succ f ih =>
    intro lst h batch hbatch
    cases lst with
    | nil => simp [makeBatchesGo] at hbatch
    | cons x xs =>
      simp only [makeBatchesGo] at hbatch
      by_cases hd : (x :: xs).drop b = []
      · rw [hd] at hbatch
        have : makeBatchesGo b f ([] : List α) = [] := by cases f <;> simp [makeBatchesGo]
        rw [this] at hbatch
        simp at hbatch
      · have hlen : b < (x :: xs).length := by
          by_contra hcon
          exact hd (List.drop_eq_nil_of_le (Nat.le_of_not_lt hcon))
        have hdroplen : ((x :: xs).drop b).length ≤ f := by
          rw [List.length_drop]
          simp only [List.length_cons] at h ⊢
          omega
        have hf1 : 1 ≤ f := by
          rw [List.length_drop] at hdroplen
          omega
        have hrec : makeBatchesGo b f ((x :: xs).drop b) ≠ [] :=
          makeBatchesGo_ne_nil b f _ hf1 hd
        rw [List.dropLast_cons_of_ne_nil hrec] at hbatch
        rcases List.mem_cons.mp hbatch with heq | htail
        · subst heq
          rw [List.length_take]
          omega
        · exact ih _ hdroplen batch htail

/-- The last batch of a nonempty list has size length mod b, or b when the
length divides evenly. -/
theorem makeBatchesGo_getLast {α : Type} (b : Nat) (hb : 1 ≤ b) :
    ∀ (fuel : Nat) (lst : List α), lst.length ≤ fuel → lst ≠ [] →
      ∃ last, (makeBatchesGo b fuel lst).getLast? = some last ∧
        last.length = (if lst.length % b = 0 then b else lst.length % b) := by
  intro fuel
  induction fuel with
  | zero =>
    intro lst h hne
    have : lst = [] := List.eq_nil_of_length_eq_zero (Nat.le_zero.mp h)
    exact absurd this hne
  | succ f ih =>
    intro lst h hne
    cases lst with
    | nil => exact absurd rfl hne
    | cons x xs =>
      by_cases hd : (x :: xs).drop b = []
      · have h0 : ((x :: xs).drop b).length = 0 := by rw [hd]; rfl
        rw [List.length_drop] at h0
        have hlenle : (x :: xs).length ≤ b := by omega
        have hrecnil : makeBatchesGo b f ((x :: xs).drop b) = [] := by
          rw [hd]; cases f <;> simp [makeBatchesGo]
        refine ⟨(x :: xs).take b, ?_, ?_⟩
        · simp [makeBatchesGo, hrecnil]
        · rw [List.length_take]
          have hpos : 1 ≤ (x :: xs).length := by simp
          rcases Nat.lt_or_ge (x :: xs).length b with hlt | hge
          · rw [Nat.mod_eq_of_lt hlt, if_neg (by omega), Nat.min_eq_right (Nat.le_of_lt hlt)]
          · have : (x :: xs).length = b := Nat.le_antisymm hlenle hge
            rw [this, Nat.mod_self, if_pos rfl, Nat.min_self]
      · have hlen : b < (x :: xs).length := by
          by_contra hcon
          exact hd (List.drop_eq_nil_of_le (Nat.le_of_not_lt hcon))
        have hdroplen : ((x :: xs).drop b).length ≤ f := by
          rw [List.length_drop]
          simp only [List.length_cons] at h ⊢
          omega
        have hf1 : 1 ≤ f := by
          rw [List.length_drop] at hdroplen
          omega
        obtain ⟨last, hlast, hlastlen⟩ := ih ((x :: xs).drop b) hdroplen hd
        refine ⟨last, ?_, ?_⟩
        · have hrec : makeBatchesGo b f ((x :: xs).drop b) ≠ [] :=
            makeBatchesGo_ne_nil b f _ hf1 hd
          show ((x :: xs).take b :: makeBatchesGo b f ((x :: xs).drop b)).getLast? = some last
          rw [getLast_cons_of_ne_nil _ hrec]
          exact hlast
        · rw [hlastlen, List.length_drop]
          have hmod : (x :: xs).length % b = ((x :: xs).length - b) % b :=
            Nat.mod_eq_sub_mod (Nat.le_of_lt hlen)
          rw [← hmod]

/-! ## Claim theorems -/

/-- Claim C5: for every non-empty list and every batch size B of at least
one, splitting with make_batches and concatenating yields the original list
in the original order, every batch except possibly the last has size
exactly B, and the last batch has size len mod B when that is nonzero, else
B.  (A batch size of zero raises ValueError inside the Python range call,
so positive batch sizes are the domain of the claim.) -/
theorem make_batches_spec {α : Type} (lst : List α) (b : Nat)
    (hb : 1 ≤ b) (hne : lst ≠ []) :
    (make_batches lst b).flatten = lst ∧
    (∀ batch ∈ (make_batches lst b).dropLast, batch.length = b) ∧
    ∃ last, (make_batches lst b).getLast? = some last ∧
      last.length = (if lst.length % b = 0 then b else lst.length % b) :=
  ⟨makeBatchesGo_join b hb lst.length lst (Nat.le_refl _),
   makeBatchesGo_dropLast_length b hb lst.length lst (Nat.le_refl _),
   makeBatchesGo_getLast b hb lst.length lst (Nat.le_refl _) hne⟩

/-- Witness for C5: the round trip at a concrete list and batch size. -/
theorem make_batches_spec_witness :
    (make_batches ([3, 1, 4, 5, 9] : List Nat) 2).flatten = [3, 1, 4, 5, 9] :=
  (make_batches_spec [3, 1, 4, 5, 9] 2 (by decide) (by decide)).1

/-- Claim C4: in a polling cycle whose batched queries all succeed and
return one reading per account (the adapter contract), each account is
paired with its reading by position, a notify call fires for a position if
and only if its health factor is strictly below its threshold (equality
does not alert), and the notify list carries no duplicate entries, so each
breaching account of a duplicate-free registry gets exactly one call with
the account and the computed factor. -/
theorem hf_cycle_alerts_iff
    (all_accounts : List TrackedAccountWithHF)
    (getV2 getV3 : List TrackedAccountWithHF → Except String (List ℚ))
    (hfs2 hfs3 : List ℚ)
    (combined : List TrackedAccountWithHF) (readings : List ℚ)
    (hacc : combined = all_accounts.filter (fun a => a.account.aave_version == "V2") ++
        all_accounts.filter (fun a => a.account.aave_version == "V3"))
    (hr : readings = hfs2 ++ hfs3)
    (h2 : runBatches getV2 (make_batches
        (all_accounts.filter (fun a => a.account.aave_version == "V2"))
        HEALTH_FACTOR_BATCH_SIZE) = Except.ok hfs2)
    (h3 : runBatches getV3 (make_batches
        (all_accounts.filter (fun a => a.account.aave_version == "V3"))
        HEALTH_FACTOR_BATCH_SIZE) = Except.ok hfs3)
    (hl2 : hfs2.length = (all_accounts.filter (fun a => a.account.aave_version == "V2")).length)
    (hl3 : hfs3.length = (all_accounts.filter (fun a => a.account.aave_version == "V3")).length) :
    health_factor_periodic_task all_accounts getV2 getV3 =
      Except.ok (notifyLoop combined readings) ∧
    (∀ i, (hiA : i < combined.length) → (hiR : i < readings.length) →
      ((combined[i], readings[i]) ∈ notifyLoop combined readings ↔
        readings[i] < combined[i].health_factor_threshold)) ∧
    (combined.Nodup → (notifyLoop combined readings).Nodup) := by
  have hlen : readings.length = combined.length := by
    subst hacc hr
    simp [hl2, hl3]
  refine ⟨?_, ?_, ?_⟩
  · subst hacc hr
    simp only [health_factor_periodic_task, h2, h3]
    rfl
  · intro i hiA hiR
    have hzlen : i < (combined.zip readings).length := by
      rw [List.length_zip]
      omega
    have hzip : (combined.zip readings)[i] = (combined[i], readings[i]) :=
      List.getElem_zip ..
    constructor
    · intro hmem
      have := (List.mem_filter.mp hmem).2
      exact of_decide_eq_true this
    · intro hlt
      refine List.mem_filter.mpr ⟨?_, decide_eq_true hlt⟩
      rw [← hzip]
      exact List.getElem_mem hzlen
  · intro hnd
    have hmapfst : (combined.zip readings).map Prod.fst = combined :=
      List.map_fst_zip _ _ (le_of_eq hlen.symm)
    have hzipnd : (combined.zip readings).Nodup := by
      apply List.Nodup.of_map Prod.fst
      rw [hmapfst]
      exact hnd
    exact hzipnd.filter _

/-- Witness for C4: a concrete cycle with one breaching V2 account (factor
0 below threshold 1) and one healthy V3 account (factor 2) produces exactly
the one expected notify call. -/
theorem hf_cycle_alerts_iff_witness :
    health_factor_periodic_task wAccounts wGetV2 wGetV3 =
      Except.ok [(wAccountV2, (0 : ℚ))] :=
  ((hf_cycle_alerts_iff wAccounts wGetV2 wGetV3 [(0 : ℚ)] [2]
      (wAccounts.filter (fun a => a.account.aave_version == "V2") ++
        wAccounts.filter (fun a => a.account.aave_version == "V3"))
      ([(0 : ℚ)] ++ [2]) rfl rfl rfl rfl (by decide) (by decide)).1).trans
    (congrArg Except.ok (by decide))

/-- Claim C3 (amended): if a batched health-factor query raises — whether
in the V2 batch loop or in the V3 batch loop that runs after it — the
exception propagates out of health_factor_periodic_task: the cycle aborts
with the error, no notify call fires for any account of the cycle
(including the accounts of other batches), and monitor_health_factor
terminates with the error instead of waiting for the next interval.  The
disjunctive hypothesis covers every failing cycle: either the V2
collection raises, or it succeeds and the V3 collection raises. -/
theorem hf_batch_failure_crashes_loop
    (all_accounts : List TrackedAccountWithHF)
    (getV2 getV3 : List TrackedAccountWithHF → Except String (List ℚ))
    (rest : List CycleOracles) (e : String)
    (h : runBatches getV2 (make_batches
        (all_accounts.filter (fun a => a.account.aave_version == "V2"))
        HEALTH_FACTOR_BATCH_SIZE) = Except.error e ∨
      (∃ hfs2, runBatches getV2 (make_batches
          (all_accounts.filter (fun a => a.account.aave_version == "V2"))
          HEALTH_FACTOR_BATCH_SIZE) = Except.ok hfs2 ∧
        runBatches getV3 (make_batches
          (all_accounts.filter (fun a => a.account.aave_version == "V3"))
          HEALTH_FACTOR_BATCH_SIZE) = Except.error e)) :
    health_factor_periodic_task all_accounts getV2 getV3 = Except.error e ∧
    monitor_health_factor
      ({ accounts := all_accounts, getV2 := getV2, getV3 := getV3 } :: rest) =
      Except.error e := by
  have htask : health_factor_periodic_task all_accounts getV2 getV3 = Except.error e := by
    rcases h with h2 | ⟨hfs2, h2ok, h3err⟩
    · simp only [health_factor_periodic_task, h2]
      rfl
    · simp only [health_factor_periodic_task, h2ok, h3err]
      rfl
  refine ⟨htask, ?_⟩
  simp only [monitor_health_factor, htask]
  rfl

/-- Counterexample for C3 as stated: 101 V2 accounts split into a batch of
100 whose query fails and a batch of 1 whose query would succeed with a
breaching reading; instead of skipping the failed batch and evaluating the
other batch, the cycle and the whole polling loop terminate with the error
and no notify call fires at all. -/
theorem hf_batch_failure_counterexample :
    health_factor_periodic_task c3Accounts c3GetV2 c3GetV3 = Except.error "RPC failure" ∧
    monitor_health_factor [{ accounts := c3Accounts, getV2 := c3GetV2, getV3 := c3GetV3 }] =
      Except.error "RPC failure" := ⟨rfl, rfl⟩

/-- Witness for the amended C3 theorem at a concrete cycle whose V3
batched query fails while the V2 collection succeeds (the V2-failure side
is exercised by the counterexample run). -/
theorem hf_batch_failure_crashes_loop_witness :
    monitor_health_factor [{ accounts := c3bAccounts, getV2 := c3bGetV2, getV3 := c3bGetV3 }] =
      Except.error "RPC failure" :=
  (hf_batch_failure_crashes_loop c3bAccounts c3bGetV2 c3bGetV3 [] "RPC failure"
    (Or.inr ⟨[], rfl, rfl⟩)).2

/-- Claim C1 (code bug): catchup_on_liquidations processes every log
returned by its historical queries but performs no settings write at all on
any input — the checkpoint is read and never advanced, contradicting the
documented checkpoint contract.  The second conjunct evaluates a concrete
run: a stored checkpoint of 5 and logs at blocks 6 and 7 are processed, yet
the write trace stays empty. -/
theorem catchup_never_advances_checkpoint :
    (∀ (chainName : String) (get_setting : String → Nat) (get_logs : LogFilter → List EthLog)
      (v2_pool_address v3_pool_address : String),
      (catchup_on_liquidations chainName get_setting get_logs
        v2_pool_address v3_pool_address).checkpoint_writes = []) ∧
    (catchup_on_liquidations "ETHEREUM" demoSettings demoGetLogs
      "0xV2POOL" "0xV3POOL").processed =
      [("V2", { blockNumber := 6 }), ("V2", { blockNumber := 7 })] := by
  constructor
  · intro chainName get_setting get_logs v2_pool_address v3_pool_address
    rfl
  · decide

/-- Claim C2 (code bug): a pushed message that decodes successfully is only
printed by the receive loop — the trace of the run shows the decoded log in
the printed list while the process_liquidation_log call list and the
checkpoint write list stay empty, so the decoded event is neither forwarded
to the shared liquidation handling nor does it advance the checkpoint. -/
theorem live_monitor_only_prints :
    monitor_liquidations demoConn liveDecode "V2" "subscribed-ok"
      [RecvEvent.message "liquidation-log"] =
      MonitorOutcome.subscribed (build_subscription_message "0xV2POOL" V2_LIQUIDATION_TOPIC)
        { printed := [{ keys := ["address", "blockNumber"] }],
          forwarded_liquidation_logs := [], checkpoint_writes := [] } := by decide

/-- Counterexample for C6 as stated: with stored checkpoint 5 and latest
block 10, the single V2 query ranges over [5, 10] inclusive, so block 5 —
the last block of the already-processed history — is covered again by the
query: the overlap of the covered range with the processed history is
exactly the singleton 5, refuting that no already-processed block is
double-counted. -/
theorem reconciler_double_counts_checkpoint_block :
    (catchup_on_liquidations "ETHEREUM" demoSettings demoGetLogs
      "0xV2POOL" "0xV3POOL").queries =
      [⟨"0xV2POOL", [V2_LIQUIDATION_TOPIC], 5, BlockTag.latest⟩,
       ⟨"0xV3POOL", [V3_LIQUIDATION_TOPIC], 5, BlockTag.latest⟩] ∧
    specCoveredBlocks ⟨"0xV2POOL", [V2_LIQUIDATION_TOPIC], 5, BlockTag.latest⟩ 10 ∩
      specProcessedHistory 5 = {5} := by
  constructor
  · decide
  · decide

/-- Claim C6 (amended): for each protocol version the Reconciler issues
exactly one historical-logs query, filtered to that version's pool address
and liquidation topic, over the inclusive range from the stored checkpoint
to latest; every block of that range is covered, so no block above the
checkpoint is skipped, but the checkpoint block itself — already part of
the processed history — is the one block counted again. -/
theorem reconciler_one_query_per_version
    (chainName v2_pool_address v3_pool_address : String)
    (get_setting : String → Nat) (get_logs : LogFilter → List EthLog) (latest : Nat)
    (h2 : get_setting ("LAST_" ++ chainName ++ "_V2_CHECKED_BLOCK") ≤ latest)
    (h3 : get_setting ("LAST_" ++ chainName ++ "_V3_CHECKED_BLOCK") ≤ latest) :
    (catchup_on_liquidations chainName get_setting get_logs
        v2_pool_address v3_pool_address).queries =
      [⟨v2_pool_address, [V2_LIQUIDATION_TOPIC],
          get_setting ("LAST_" ++ chainName ++ "_V2_CHECKED_BLOCK"), BlockTag.latest⟩,
       ⟨v3_pool_address, [V3_LIQUIDATION_TOPIC],
          get_setting ("LAST_" ++ chainName ++ "_V3_CHECKED_BLOCK"), BlockTag.latest⟩] ∧
    (∀ b, b ∈ specCoveredBlocks ⟨v2_pool_address, [V2_LIQUIDATION_TOPIC],
          get_setting ("LAST_" ++ chainName ++ "_V2_CHECKED_BLOCK"), BlockTag.latest⟩ latest ↔
      (get_setting ("LAST_" ++ chainName ++ "_V2_CHECKED_BLOCK") ≤ b ∧ b ≤ latest)) ∧
    specCoveredBlocks ⟨v2_pool_address, [V2_LIQUIDATION_TOPIC],
        get_setting ("LAST_" ++ chainName ++ "_V2_CHECKED_BLOCK"), BlockTag.latest⟩ latest ∩
      specProcessedHistory (get_setting ("LAST_" ++ chainName ++ "_V2_CHECKED_BLOCK")) =
      {(get_setting ("LAST_" ++ chainName ++ "_V2_CHECKED_BLOCK"))} ∧
    (∀ b, b ∈ specCoveredBlocks ⟨v3_pool_address, [V3_LIQUIDATION_TOPIC],
          get_setting ("LAST_" ++ chainName ++ "_V3_CHECKED_BLOCK"), BlockTag.latest⟩ latest ↔
      (get_setting ("LAST_" ++ chainName ++ "_V3_CHECKED_BLOCK") ≤ b ∧ b ≤ latest)) ∧
    specCoveredBlocks ⟨v3_pool_address, [V3_LIQUIDATION_TOPIC],
        get_setting ("LAST_" ++ chainName ++ "_V3_CHECKED_BLOCK"), BlockTag.latest⟩ latest ∩
      specProcessedHistory (get_setting ("LAST_" ++ chainName ++ "_V3_CHECKED_BLOCK")) =
      {(get_setting ("LAST_" ++ chainName ++ "_V3_CHECKED_BLOCK"))} := by
  refine ⟨rfl, ?_, ?_, ?_, ?_⟩
  · intro b
    simp [specCoveredBlocks, Finset.mem_Icc]
  · ext b
    simp only [specCoveredBlocks, specProcessedHistory, Finset.mem_inter, Finset.mem_Icc,
      Finset.mem_Iic, Finset.mem_singleton]
    omega
  · intro b
    simp [specCoveredBlocks, Finset.mem_Icc]
  · ext b
    simp only [specCoveredBlocks, specProcessedHistory, Finset.mem_inter, Finset.mem_Icc,
      Finset.mem_Iic, Finset.mem_singleton]
    omega

/-- Witness for the amended C6 theorem at stored checkpoint 5 and latest
block 10. -/
theorem reconciler_one_query_per_version_witness :
    (catchup_on_liquidations "ETHEREUM" demoSettings demoGetLogs
        "0xV2POOL" "0xV3POOL").queries =
      [⟨"0xV2POOL", [V2_LIQUIDATION_TOPIC], 5, BlockTag.latest⟩,
       ⟨"0xV3POOL", [V3_LIQUIDATION_TOPIC], 5, BlockTag.latest⟩] :=
  (reconciler_one_query_per_version "ETHEREUM" "0xV2POOL" "0xV3POOL" demoSettings
    demoGetLogs 10 (by decide) (by decide)).1

/-- Every message that decodes successfully before any connection close is
printed by the receive loop. -/
theorem monitorLoop_printed_mem (decode : String → Option JsonObject) :
    ∀ (events : List RecvEvent) (raw : String) (obj : JsonObject),
      RecvEvent.connectionClosed ∉ events → RecvEvent.message raw ∈ events →
      decode raw = some obj → obj ∈ (monitorLoop decode events).printed := by
  intro events
  induction events with
  | nil =>
    intro raw obj _ hmem _
    cases hmem
  | cons ev rest ih =>
    intro raw obj hnc hmem hdec
    cases ev with
    | connectionClosed => exact absurd (List.mem_cons_self _ _) hnc
    | message r =>
      have hnc2 : RecvEvent.connectionClosed ∉ rest := fun hc => hnc (List.mem_cons_of_mem _ hc)
      rcases List.mem_cons.mp hmem with heq | htail
      · have hr : raw = r := by injection heq
        subst hr
        simp only [monitorLoop, hdec]
        exact List.mem_cons_self _ _
      · cases hd : decode r with
        | none =>
          simp only [monitorLoop, hd]
          exact ih raw obj hnc2 htail hdec
        | some m =>
          simp only [monitorLoop, hd]
          exact List.mem_cons_of_mem _ (ih raw obj hnc2 htail hdec)

/-- Claim C7: a pushed message that fails to decode is skipped without
terminating the receive loop — the run is identical to the run without the
bad message — and every later message that decodes successfully (while the
connection stays open) is still processed. -/
theorem unparseable_message_not_fatal (decode : String → Option JsonObject)
    (bad : String) (rest : List RecvEvent) (hbad : decode bad = none) :
    monitorLoop decode (RecvEvent.message bad :: rest) = monitorLoop decode rest ∧
    (∀ raw obj, RecvEvent.connectionClosed ∉ rest → RecvEvent.message raw ∈ rest →
      decode raw = some obj →
      obj ∈ (monitorLoop decode (RecvEvent.message bad :: rest)).printed) := by
  have hskip : monitorLoop decode (RecvEvent.message bad :: rest) = monitorLoop decode rest := by
    simp only [monitorLoop, hbad]
  refine ⟨hskip, ?_⟩
  intro raw obj hnc hmem hdec
  rw [hskip]
  exact monitorLoop_printed_mem decode rest raw obj hnc hmem hdec

/-- Witness for C7: after an undecodable message, a later decodable message
is still processed. -/
theorem unparseable_message_not_fatal_witness :
    { keys := ["address", "blockNumber"] } ∈
      (monitorLoop liveDecode
        [RecvEvent.message "garbage", RecvEvent.message "liquidation-log"]).printed :=
  (unparseable_message_not_fatal liveDecode "garbage" [RecvEvent.message "liquidation-log"]
    (by decide)).2 "liquidation-log" { keys := ["address", "blockNumber"] }
    (by decide) (by decide) (by decide)

/-- Python falsiness of an optional string characterised: missing or
empty. -/
theorem isFalsy_iff (o : Option String) : isFalsy o = true ↔ (o = none ∨ o = some "") := by
  cases o with
  | none => simp [isFalsy]
  | some s => simp [isFalsy]

/-- Claim C8: the constructor raises a StartupException if and only if the
HTTP-style or the websocket RPC endpoint configuration of the chain is
missing or empty; when both are present and non-empty, construction
succeeds and the returned state stores both endpoints. -/
theorem init_fails_iff_endpoint_missing (chainName : String)
    (getenv : String → Option String) (v2_pool_address v3_pool_address : String) :
    ((∃ msg, BaseConnector_init chainName getenv v2_pool_address v3_pool_address =
        InitResult.startup_exception msg) ↔
      (getenv (chainName ++ "_HTTP_RPC") = none ∨ getenv (chainName ++ "_HTTP_RPC") = some "" ∨
       getenv (chainName ++ "_WS_RPC") = none ∨ getenv (chainName ++ "_WS_RPC") = some "")) ∧
    (∀ http ws, getenv (chainName ++ "_HTTP_RPC") = some http → http ≠ "" →
      getenv (chainName ++ "_WS_RPC") = some ws → ws ≠ "" →
      BaseConnector_init chainName getenv v2_pool_address v3_pool_address =
        InitResult.ok ⟨http, ws, chainName, v2_pool_address, v3_pool_address⟩) := by
  by_cases hc : (isFalsy (getenv (chainName ++ "_HTTP_RPC")) ||
      isFalsy (getenv (chainName ++ "_WS_RPC"))) = true
  · have hinit : BaseConnector_init chainName getenv v2_pool_address v3_pool_address =
        InitResult.startup_exception
          ("Either http or ws rpc for " ++ chainName ++ " was not found") := by
      simp only [BaseConnector_init, hc, if_true]
    constructor
    · rw [hinit]
      constructor
      · intro _
        rcases Bool.or_eq_true_iff.mp hc with hf | hf
        · rcases (isFalsy_iff _).mp hf with h | h
          · exact Or.inl h
          · exact Or.inr (Or.inl h)
        · rcases (isFalsy_iff _).mp hf with h | h
          · exact Or.inr (Or.inr (Or.inl h))
          · exact Or.inr (Or.inr (Or.inr h))
      · intro _
        exact ⟨_, rfl⟩
    · intro http ws hhttp hne hws hwsne
      exfalso
      rcases Bool.or_eq_true_iff.mp hc with hf | hf
      · rcases (isFalsy_iff _).mp hf with h | h
        · rw [hhttp] at h; cases h
        · rw [hhttp] at h; exact hne (Option.some.inj h)
      · rcases (isFalsy_iff _).mp hf with h | h
        · rw [hws] at h; cases h
        · rw [hws] at h; exact hwsne (Option.some.inj h)
  · have hcf : (isFalsy (getenv (chainName ++ "_HTTP_RPC")) ||
        isFalsy (getenv (chainName ++ "_WS_RPC"))) = false := by
      exact Bool.not_eq_true _ ▸ (by simpa using hc)
    have hinit : BaseConnector_init chainName getenv v2_pool_address v3_pool_address =
        InitResult.ok ⟨(getenv (chainName ++ "_HTTP_RPC")).getD "",
          (getenv (chainName ++ "_WS_RPC")).getD "", chainName,
          v2_pool_address, v3_pool_address⟩ := by
      simp only [BaseConnector_init, hcf, Bool.false_eq_true, if_false]
    rcases Bool.or_eq_false_iff.mp hcf with ⟨hf1, hf2⟩
    have hn1 : ¬(getenv (chainName ++ "_HTTP_RPC") = none ∨
        getenv (chainName ++ "_HTTP_RPC") = some "") := by
      intro h
      rw [← isFalsy_iff] at h
      rw [hf1] at h
      cases h
    have hn2 : ¬(getenv (chainName ++ "_WS_RPC") = none ∨
        getenv (chainName ++ "_WS_RPC") = some "") := by
      intro h
      rw [← isFalsy_iff] at h
      rw [hf2] at h
      cases h
    constructor
    · rw [hinit]
      constructor
      · intro ⟨msg, hmsg⟩
        cases hmsg
      · intro hor
        exfalso
        rcases hor with h | h | h | h
        · exact hn1 (Or.inl h)
        · exact hn1 (Or.inr h)
        · exact hn2 (Or.inl h)
        · exact hn2 (Or.inr h)
    · intro http ws hhttp hne hws hwsne
      rw [hinit, hhttp, hws]
      rfl

/-- Witness for C8: with both endpoints configured for ETHEREUM the
constructor succeeds and stores them. -/
theorem init_fails_iff_endpoint_missing_witness :
    BaseConnector_init "ETHEREUM" wGetenv "0xV2POOL" "0xV3POOL" =
      InitResult.ok ⟨"http-url", "ws-url", "ETHEREUM", "0xV2POOL", "0xV3POOL"⟩ :=
  (init_fails_iff_endpoint_missing "ETHEREUM" wGetenv "0xV2POOL" "0xV3POOL").2
    "http-url" "ws-url" (by decide) (by decide) (by decide) (by decide)

/-- The connected phase of the live monitor never raises an
AssertionError: it yields a startup exception or a subscription. -/
theorem connected_no_assertion (conn : ConnectorState) (decode : String → Option JsonObject)
    (aave_version pool_address : String) (liquidation_topic : LiquidationTopic)
    (raw_subscription_response : String) (events : List RecvEvent) (msg : String) :
    monitorLiquidationsConnected conn decode aave_version pool_address liquidation_topic
      raw_subscription_response events ≠ MonitorOutcome.assertion_error msg := by
  simp only [monitorLiquidationsConnected]
  cases hdec : decode raw_subscription_response with
  | none => simp
  | some o =>
    by_cases h : "error" ∈ o.keys
    · simp [h]
    · simp [h]

/-- When the connected phase reaches the subscribed outcome, the request it
sent is exactly the one built for its pool address and topic. -/
theorem connected_subscribed_sent (conn : ConnectorState) (decode : String → Option JsonObject)
    (aave_version pool_address : String) (liquidation_topic : LiquidationTopic)
    (raw_subscription_response : String) (events : List RecvEvent)
    (sent : SubscriptionMessage) (trace : LiveLoopTrace)
    (h : monitorLiquidationsConnected conn decode aave_version pool_address liquidation_topic
      raw_subscription_response events = MonitorOutcome.subscribed sent trace) :
    sent = build_subscription_message pool_address liquidation_topic := by
  simp only [monitorLiquidationsConnected] at h
  split at h
  · cases h
  · split at h
    · cases h
    · injection h with h1 h2
      exact h1.symm

/-- Claim C9: when the subscription acknowledgment decodes to an object
containing an error key, monitor_liquidations raises a StartupException for
that version — for every possible stream of later events, so the
message-receiving loop is never entered. -/
theorem error_ack_raises_startup (conn : ConnectorState)
    (decode : String → Option JsonObject)
    (aave_version raw_subscription_response : String) (events : List RecvEvent)
    (obj : JsonObject) (hver : aave_version = "V2" ∨ aave_version = "V3")
    (hdec : decode raw_subscription_response = some obj) (herr : "error" ∈ obj.keys) :
    monitor_liquidations conn decode aave_version raw_subscription_response events =
      MonitorOutcome.startup_exception
        ("Failed to subscribe to liquidations for " ++ conn.chainName ++
          " aave " ++ aave_version) := by
  have hconn : ∀ pool topic,
      monitorLiquidationsConnected conn decode aave_version pool topic
        raw_subscription_response events =
      MonitorOutcome.startup_exception
        ("Failed to subscribe to liquidations for " ++ conn.chainName ++
          " aave " ++ aave_version) := by
    intro pool topic
    simp only [monitorLiquidationsConnected, hdec]
    rw [if_pos herr]
  rcases hver with h | h
  · subst h
    simp only [monitor_liquidations, if_pos rfl]
    exact hconn _ _
  · subst h
    rw [monitor_liquidations, if_neg (by decide), if_pos rfl]
    exact hconn _ _

/-- Witness for C9: an error acknowledgment on the V2 monitor raises the
startup exception. -/
theorem error_ack_raises_startup_witness :
    monitor_liquidations demoConn liveDecode "V2" "error-ack" [] =
      MonitorOutcome.startup_exception
        "Failed to subscribe to liquidations for ETHEREUM aave V2" :=
  error_ack_raises_startup demoConn liveDecode "V2" "error-ack" [] ⟨["error"]⟩
    (Or.inl rfl) (by decide) (by decide)

/-- Claim C10: monitor_liquidations yields the AssertionError outcome if
and only if the version argument is neither V2 nor V3 — and it does so for
every subscription response and event stream, i.e. before any network
interaction — while for the two valid versions the subscription request it
sends selects that version's pool address and liquidation topic. -/
theorem monitor_version_guard (conn : ConnectorState) (decode : String → Option JsonObject)
    (aave_version raw_subscription_response : String) (events : List RecvEvent) :
    (aave_version ≠ "V2" → aave_version ≠ "V3" →
      monitor_liquidations conn decode aave_version raw_subscription_response events =
        MonitorOutcome.assertion_error ("Unknown aave version " ++ aave_version)) ∧
    (∀ msg, monitor_liquidations conn decode aave_version raw_subscription_response events =
        MonitorOutcome.assertion_error msg → aave_version ≠ "V2" ∧ aave_version ≠ "V3") ∧
    (∀ sent trace, monitor_liquidations conn decode "V2" raw_subscription_response events =
        MonitorOutcome.subscribed sent trace →
      sent = build_subscription_message conn.v2_pool_address V2_LIQUIDATION_TOPIC) ∧
    (∀ sent trace, monitor_liquidations conn decode "V3" raw_subscription_response events =
        MonitorOutcome.subscribed sent trace →
      sent = build_subscription_message conn.v3_pool_address V3_LIQUIDATION_TOPIC) := by
  refine ⟨?_, ?_, ?_, ?_⟩
  · intro h2 h3
    rw [monitor_liquidations, if_neg h2, if_neg h3]
  · intro msg hmsg
    constructor
    · intro h2
      subst h2
      rw [monitor_liquidations, if_pos rfl] at hmsg
      exact connected_no_assertion _ _ _ _ _ _ _ _ hmsg
    · intro h3
      subst h3
      rw [monitor_liquidations, if_neg (by decide), if_pos rfl] at hmsg
      exact connected_no_assertion _ _ _ _ _ _ _ _ hmsg
  · intro sent trace h
    rw [monitor_liquidations, if_pos rfl] at h
    exact connected_subscribed_sent _ _ _ _ _ _ _ _ _ h
  · intro sent trace h
    rw [monitor_liquidations, if_neg (by decide), if_pos rfl] at h
    exact connected_subscribed_sent _ _ _ _ _ _ _ _ _ h

/-- Witness for C10: the unknown version V1 yields the AssertionError
outcome. -/
theorem monitor_version_guard_witness :
    monitor_liquidations demoConn liveDecode "V1" "subscribed-ok" [] =
      MonitorOutcome.assertion_error "Unknown aave version V1" :=
  (monitor_version_guard demoConn liveDecode "V1" "subscribed-ok" []).1
    (by decide) (by decide)
